import Mathlib

/-!
# Envelope encryption (`main.go`)

A shallow embedding of `CreateDek`, `encryptDek`, `decryptDek`, `Encrypt` and
`Decrypt` from `main.go`.

The Tink calls the program makes (`keyset.NewHandle`, `aead.New`,
`Handle.Write`, `keyset.Read`, `AEAD.Encrypt`, `AEAD.Decrypt`) belong to an
external module; they are the fields of the structure `Tink`, over which every
definition is parametric.  Conventions:

* a Go `[]byte` is a `Slice`, with `none` for the nil slice;
* a `*keyset.Handle` is an `Option H`, with `none` for the nil pointer;
* a Go `(value, error)` result is an `Except E _`, and the value returned next
  to a non-nil error is taken to be nil;
* `aead.New` is the one call the program makes on a handle it has not checked;
  it dereferences that handle, so besides a primitive or an error its result
  can be a panic (`Built.panic`).  A panic ends the run: nothing is printed or
  returned after it, and the functions on the stack do not return;
* the calls that draw randomness take the generator state `W` and return the
  next one;
* every function returns, next to its Go result, the chronological list of the
  library calls it made and of the lines it printed, and the flag `panicked`;
  when `panicked` is `true` the function did not return and `ret` is `none`;
* `Encrypt` and `Decrypt` also return the values their locals `dek` and
  `aeadPrimitive` hold at the `return` statement that is taken (or at the
  panic).
-/

namespace Envelope

/-- A Go `[]byte` value; `none` is the nil slice. -/
abbrev Slice := Option (List Nat)

/-- What `dek.Write(binaryWriter, aeadPrimitive)` leaves behind: the content of
the buffer behind the writer (what `encryptedDek.Bytes()` yields afterwards),
the returned error (`none` for a nil error) and the next generator state. -/
structure WriteOut (E W : Type) where
  buf : Slice
  err : Option E
  rng : W

/-- What a call `aead.New(h)` does: it returns a primitive, returns an error,
or panics. -/
inductive Built (E P : Type) where
  | ok (aeadPrimitive : P) : Built E P
  | error (err : E) : Built E P
  | panic : Built E P

/-- The Tink operations called by `main.go`. -/
structure Tink (H P E W : Type) where
  /-- `keyset.NewHandle(aead.AES128GCMKeyTemplate())` -/
  newHandle : W → Except E H × W
  /-- `aead.New(h)`; `h` may be the nil pointer -/
  aeadNew : Option H → Built E P
  /-- `dek.Write(keyset.NewBinaryWriter(buf), aeadPrimitive)` on an empty `buf` -/
  write : Option H → P → W → WriteOut E W
  /-- `keyset.Read(keyset.NewBinaryReader(bytes.NewBuffer(blob)), aeadPrimitive)` -/
  read : Slice → P → Except E H
  /-- `aeadPrimitive.Encrypt(data, associatedData)` -/
  encrypt : P → Slice → Slice → W → Except E Slice × W
  /-- `aeadPrimitive.Decrypt(ciphertext, associatedData)` -/
  decrypt : P → Slice → Slice → Except E Slice

/-- One observable step of a run: a library call with its arguments, or a line
printed with `fmt.Println(msg, err)`. -/
inductive Event (H P E : Type) where
  | newHandle : Event H P E
  | aeadNew (h : Option H) : Event H P E
  | write (dek : Option H) (p : P) : Event H P E
  | read (blob : Slice) (p : P) : Event H P E
  | encrypt (p : P) (data ad : Slice) : Event H P E
  | decrypt (p : P) (ct ad : Slice) : Event H P E
  | println (msg : String) (err : E) : Event H P E
  deriving DecidableEq

/-- The Go result of a helper together with the events of the call and whether
the call ended in a panic. -/
structure Traced (α H P E : Type) where
  ret : α
  trace : List (Event H P E)
  panicked : Bool

/-- The state in which `Encrypt` or `Decrypt` ends: the returned slice, the
values of the locals `dek` and `aeadPrimitive` at that point, the events of the
call, and whether the call ended in a panic instead of a `return`. -/
structure Exit (H P E : Type) where
  ret : Slice
  dek : Option H
  aeadPrimitive : Option P
  trace : List (Event H P E)
  panicked : Bool

variable {H P E W : Type}

/-- `func encryptDek(kek *keyset.Handle, dek *keyset.Handle) []byte` -/
def encryptDek (lib : Tink H P E W) (kek dek : Option H) (w : W) :
    Traced Slice H P E × W :=
  match lib.aeadNew kek with
  | .panic => (⟨none, [.aeadNew kek], true⟩, w)
  | .error err =>
    (⟨none, [.aeadNew kek, .println "Unable to create AEAD primitive from KEK" err],
      false⟩, w)
  | .ok aeadPrimitive =>
    let out := lib.write dek aeadPrimitive w
    match out.err with
    | some err =>
      (⟨none, [.aeadNew kek, .write dek aeadPrimitive,
               .println "Unable to encrypt DEK" err], false⟩, out.rng)
    | none =>
      (⟨out.buf, [.aeadNew kek, .write dek aeadPrimitive], false⟩, out.rng)

/-- `func CreateDek(kek *keyset.Handle) []byte` -/
def CreateDek (lib : Tink H P E W) (kek : Option H) (w : W) :
    Traced Slice H P E × W :=
  match lib.newHandle w with
  | (.error err, w1) =>
    (⟨none, [.newHandle, .println "Unable to create DEK" err], false⟩, w1)
  | (.ok dek, w1) =>
    let r := encryptDek lib kek (some dek) w1
    (⟨r.1.ret, .newHandle :: r.1.trace, r.1.panicked⟩, r.2)

/-- `func decryptDek(kek *keyset.Handle, encryptedDek []byte) *keyset.Handle` -/
def decryptDek (lib : Tink H P E W) (kek : Option H) (encryptedDek : Slice) :
    Traced (Option H) H P E :=
  match lib.aeadNew kek with
  | .panic => ⟨none, [.aeadNew kek], true⟩
  | .error err =>
    ⟨none, [.aeadNew kek, .println "Unable to create AEAD primitive from KEK" err],
     false⟩
  | .ok aeadPrimitive =>
    match lib.read encryptedDek aeadPrimitive with
    | .error err =>
      ⟨none, [.aeadNew kek, .read encryptedDek aeadPrimitive,
              .println "Unable to decrypt the DEK" err], false⟩
    | .ok dek =>
      ⟨some dek, [.aeadNew kek, .read encryptedDek aeadPrimitive], false⟩

/-- `func Encrypt(data []byte, kek *keyset.Handle, encryptedDek []byte) []byte` -/
def Encrypt (lib : Tink H P E W) (data : Slice) (kek : Option H)
    (encryptedDek : Slice) (w : W) : Exit H P E × W :=
  let d := decryptDek lib kek encryptedDek
  match d.panicked with
  | true => (⟨none, none, none, d.trace, true⟩, w)
  | false =>
    match lib.aeadNew d.ret with
    | .panic => (⟨none, d.ret, none, d.trace ++ [.aeadNew d.ret], true⟩, w)
    | .error err =>
      (⟨none, d.ret, none,
        d.trace ++ [.aeadNew d.ret,
                    .println "Unable to create AEAD primitive from DEK" err],
        false⟩, w)
    | .ok aeadPrimitive =>
      match lib.encrypt aeadPrimitive data none w with
      | (.error err, w1) =>
        (⟨none, d.ret, some aeadPrimitive,
          d.trace ++ [.aeadNew d.ret, .encrypt aeadPrimitive data none,
                      .println "Unable to encrypt the data using DEK" err],
          false⟩, w1)
      | (.ok encryptedBytes, w1) =>
        (⟨encryptedBytes, none, none,
          d.trace ++ [.aeadNew d.ret, .encrypt aeadPrimitive data none],
          false⟩, w1)

/-- `func Decrypt(encryptedBytes []byte, kek *keyset.Handle, encryptedDek []byte) []byte` -/
def Decrypt (lib : Tink H P E W) (encryptedBytes : Slice) (kek : Option H)
    (encryptedDek : Slice) : Exit H P E :=
  let d := decryptDek lib kek encryptedDek
  match d.panicked with
  | true => ⟨none, none, none, d.trace, true⟩
  | false =>
    match lib.aeadNew d.ret with
    | .panic => ⟨none, d.ret, none, d.trace ++ [.aeadNew d.ret], true⟩
    | .error err =>
      ⟨none, d.ret, none,
       d.trace ++ [.aeadNew d.ret,
                   .println "Unable to create AEAD primitive from DEK" err],
       false⟩
    | .ok aeadPrimitive =>
      match lib.decrypt aeadPrimitive encryptedBytes none with
      | .error err =>
        ⟨none, d.ret, some aeadPrimitive,
         d.trace ++ [.aeadNew d.ret, .decrypt aeadPrimitive encryptedBytes none,
                     .println "Unable to decrypt the data using DEK" err],
         false⟩
      | .ok decryptedBytes =>
        ⟨decryptedBytes, none, none,
         d.trace ++ [.aeadNew d.ret, .decrypt aeadPrimitive encryptedBytes none],
         false⟩

/-! ## Properties of the library that the claims assume -/

/-- `open(k, seal(k, m)) = m` for the plaintext `m`, under every primitive,
associated data and generator state. -/
def OpenSeal (lib : Tink H P E W) (m : Slice) : Prop :=
  ∀ p ad w c, (lib.encrypt p m ad w).1 = .ok c → lib.decrypt p c ad = .ok m

/-- `read(k, write(k, h)) = h`: a keyset written without error under a
primitive is read back under the same primitive. -/
def ReadWrite (lib : Tink H P E W) : Prop :=
  ∀ h p w, (lib.write (some h) p w).err = none →
    lib.read (lib.write (some h) p w).buf p = .ok h

/-- The AEAD open fails under a key other than the sealing key. -/
def WrongKeyFails (lib : Tink H P E W) : Prop :=
  ∀ h1 h2 p1 p2 m ad w c, h1 ≠ h2 →
    lib.aeadNew (some h1) = .ok p1 → lib.aeadNew (some h2) = .ok p2 →
    (lib.encrypt p1 m ad w).1 = .ok c → ∃ e, lib.decrypt p2 c ad = .error e

/-- The messages printed during a run, in order. -/
def printed : List (Event H P E) → List String
  | [] => []
  | .println msg _ :: es => msg :: printed es
  | _ :: es => printed es

/-! ## A small concrete library

Keys are numbers.  A sealed message is `tag :: nonce :: body` with
`tag = key + nonce + sum of the associated data + sum of the body`; opening
recomputes the tag.  A written keyset is the sealed handle followed by one
byte of keyset information in the clear, which reading does not look at, as in
the encrypted-keyset format of Tink.  `aead.New` panics on the nil handle.
The library is used to evaluate the program on concrete inputs. -/

/-- Errors of the concrete library. -/
inductive ToyErr where
  | noEntropy
  | nilHandle
  | invalidKeyset
  | sealFailed
  | authFailed
  | badKeyset
  deriving DecidableEq

/-- Sum of the bytes of a slice (`0` for nil). -/
def sliceSum (s : Slice) : Nat := (s.getD []).sum

/-- Seal `body` under `key` with `nonce` and associated-data sum `a`. -/
def toySeal (key nonce a : Nat) (body : List Nat) : List Nat :=
  (key + nonce + a + body.sum) :: nonce :: body

/-- Open a sealed message under `key` with associated-data sum `a`. -/
def toyOpen (key a : Nat) : List Nat → Option (List Nat)
  | tag :: nonce :: body => if tag = key + nonce + a + body.sum then some body else none
  | _ => none

/-- The concrete library.  Generator state `0` has no entropy left; `aead.New`
panics on the nil handle; handle `0` is an invalid keyset; key `13` cannot
seal.  A written keyset is three sealed bytes followed by the information byte
`1`. -/
def toy : Tink Nat Nat ToyErr Nat where
  newHandle w := if w = 0 then (.error .noEntropy, 0) else (.ok (100 + w), w + 1)
  aeadNew h :=
    match h with
    | none => .panic
    | some 0 => .error .invalidKeyset
    | some (k + 1) => .ok (k + 1)
  write dek p w :=
    match dek with
    | none => ⟨none, some .nilHandle, w⟩
    | some h =>
      if p = 13 then ⟨some [8, 1], some .sealFailed, w⟩
      else ⟨some (toySeal p w 0 [h] ++ [1]), none, w + 1⟩
  read blob p :=
    match toyOpen p 0 ((blob.getD []).take 3) with
    | some [h] => .ok h
    | _ => .error .badKeyset
  encrypt p data ad w :=
    if p = 13 then (.error .sealFailed, w)
    else (.ok (some (toySeal p w (sliceSum ad) (data.getD []))), w + 1)
  decrypt p ct ad :=
    match toyOpen p (sliceSum ad) (ct.getD []) with
    | some body => .ok (some body)
    | none => .error .authFailed

/-! ## How each function returns -/

theorem encryptDek_ret_some (lib : Tink H P E W) (kek dek : Option H) (w : W)
    (B : List Nat) (h : (encryptDek lib kek dek w).1.ret = some B) :
    ∃ p, lib.aeadNew kek = .ok p ∧ (lib.write dek p w).err = none ∧
      (lib.write dek p w).buf = some B := by
  unfold encryptDek at h
  split at h
  · simp at h
  · simp at h
  · rename_i p hp
    refine ⟨p, hp, ?_⟩
    simp only at h
    split at h
    · simp at h
    · rename_i herr
      exact ⟨herr, h⟩

theorem CreateDek_ret_some (lib : Tink H P E W) (kek : Option H) (w : W)
    (D : List Nat) (h : (CreateDek lib kek w).1.ret = some D) :
    ∃ dek p, (lib.newHandle w).1 = .ok dek ∧ lib.aeadNew kek = .ok p ∧
      (lib.write (some dek) p (lib.newHandle w).2).err = none ∧
      (lib.write (some dek) p (lib.newHandle w).2).buf = some D := by
  unfold CreateDek at h
  split at h
  · simp at h
  · rename_i dek w1 hg
    obtain ⟨p, hp, herr, hbuf⟩ := encryptDek_ret_some lib kek (some dek) w1 D h
    exact ⟨dek, p, by rw [hg], hp, by rw [hg]; exact herr, by rw [hg]; exact hbuf⟩

theorem decryptDek_ok (lib : Tink H P E W) (kek : Option H) (B : Slice) (p : P)
    (dek : H) (hp : lib.aeadNew kek = .ok p) (hr : lib.read B p = .ok dek) :
    decryptDek lib kek B = ⟨some dek, [.aeadNew kek, .read B p], false⟩ := by
  simp [decryptDek, hp, hr]

theorem decryptDek_ret_some (lib : Tink H P E W) (kek : Option H) (B : Slice)
    (dek : H) (h : (decryptDek lib kek B).ret = some dek) :
    ∃ p, lib.aeadNew kek = .ok p ∧ lib.read B p = .ok dek := by
  unfold decryptDek at h
  split at h
  · simp at h
  · simp at h
  · rename_i p hp
    split at h
    · simp at h
    · rename_i d hd
      simp at h
      exact ⟨p, hp, by rw [hd, h]⟩

theorem decryptDek_trace_no_payload (lib : Tink H P E W) (kek : Option H)
    (B : Slice) (q : P) (d ad : Slice) :
    Event.encrypt q d ad ∉ (decryptDek lib kek B).trace ∧
      Event.decrypt q d ad ∉ (decryptDek lib kek B).trace := by
  unfold decryptDek
  split
  · simp
  · simp
  · split <;> simp

theorem Encrypt_ret_some (lib : Tink H P E W) (data : Slice) (kek : Option H)
    (B : Slice) (w : W) (c : List Nat)
    (h : (Encrypt lib data kek B w).1.ret = some c) :
    ∃ p, lib.aeadNew (decryptDek lib kek B).ret = .ok p ∧
      (lib.encrypt p data none w).1 = .ok (some c) ∧
      (Encrypt lib data kek B w).1.trace =
        (decryptDek lib kek B).trace ++
          [.aeadNew (decryptDek lib kek B).ret, .encrypt p data none] := by
  unfold Encrypt at h ⊢
  simp only at h ⊢
  split at h
  · simp at h
  · rename_i hd
    split at h
    · simp at h
    · simp at h
    · rename_i p hp
      split at h
      · simp at h
      · rename_i c1 w1 hc
        simp only at h
        refine ⟨p, hp, by rw [hc, h], ?_⟩
        simp [hd, hp, hc]

theorem Decrypt_open_error (lib : Tink H P E W) (ct : Slice) (kek : Option H)
    (B : Slice) (p : P) (e : E)
    (hd : (decryptDek lib kek B).panicked = false)
    (hp : lib.aeadNew (decryptDek lib kek B).ret = .ok p)
    (ho : lib.decrypt p ct none = .error e) :
    Decrypt lib ct kek B =
      ⟨none, (decryptDek lib kek B).ret, some p,
       (decryptDek lib kek B).trace ++
         [.aeadNew (decryptDek lib kek B).ret, .decrypt p ct none,
          .println "Unable to decrypt the data using DEK" e], false⟩ := by
  simp [Decrypt, hd, hp, ho]

theorem Decrypt_open_ok (lib : Tink H P E W) (ct : Slice) (kek : Option H)
    (B : Slice) (p : P) (m : Slice)
    (hd : (decryptDek lib kek B).panicked = false)
    (hp : lib.aeadNew (decryptDek lib kek B).ret = .ok p)
    (ho : lib.decrypt p ct none = .ok m) :
    Decrypt lib ct kek B =
      ⟨m, none, none,
       (decryptDek lib kek B).trace ++
         [.aeadNew (decryptDek lib kek B).ret, .decrypt p ct none], false⟩ := by
  simp [Decrypt, hd, hp, ho]

theorem Decrypt_primitive_error (lib : Tink H P E W) (ct : Slice) (kek : Option H)
    (B : Slice) (e : E)
    (hd : (decryptDek lib kek B).panicked = false)
    (hp : lib.aeadNew (decryptDek lib kek B).ret = .error e) :
    Decrypt lib ct kek B =
      ⟨none, (decryptDek lib kek B).ret, none,
       (decryptDek lib kek B).trace ++
         [.aeadNew (decryptDek lib kek B).ret,
          .println "Unable to create AEAD primitive from DEK" e], false⟩ := by
  simp [Decrypt, hd, hp]

/-- After a failed unwrap both `Encrypt` and `Decrypt` end in a panic, in any
library whose `aead.New` panics on the nil handle. -/
theorem failed_unwrap_ends_in_panic (lib : Tink H P E W) (data ct : Slice)
    (kek : Option H) (B : Slice) (w : W)
    (hun : (decryptDek lib kek B).ret = none)
    (hnil : lib.aeadNew none = .panic) :
    (Encrypt lib data kek B w).1.panicked = true ∧
      (Decrypt lib ct kek B).panicked = true := by
  unfold Encrypt Decrypt
  simp only [hun, hnil]
  constructor <;> split <;> rfl

/-! ## The concrete library satisfies the assumed properties -/

theorem toy_openSeal (bs : List Nat) : OpenSeal toy (some bs) := by
  intro p ad w c h
  simp only [toy] at h ⊢
  split at h
  · simp at h
  · simp only [Except.ok.injEq] at h
    subst h
    simp [toyOpen, toySeal]

theorem toy_readWrite : ReadWrite toy := by
  intro h p w herr
  simp only [toy] at herr ⊢
  split at herr
  · simp at herr
  · rename_i hp
    simp [hp, toyOpen, toySeal]

theorem toy_aeadNew_ok (h p : Nat) (hp : toy.aeadNew (some h) = .ok p) : p = h := by
  cases h with
  | zero => simp [toy] at hp
  | succ k => simp [toy] at hp; omega

theorem toy_wrongKeyFails : WrongKeyFails toy := by
  intro h1 h2 p1 p2 m ad w c hne hp1 hp2 hc
  have e1 := toy_aeadNew_ok h1 p1 hp1
  have e2 := toy_aeadNew_ok h2 p2 hp2
  subst e1 e2
  refine ⟨.authFailed, ?_⟩
  simp only [toy] at hc ⊢
  split at hc
  · simp at hc
  · simp only [Except.ok.injEq] at hc
    subst hc
    have : ¬ (p1 + w + sliceSum ad + (Option.getD m []).sum
              = p2 + w + sliceSum ad + (Option.getD m []).sum) := by omega
    simp [toyOpen, toySeal, this]

theorem decryptDek_not_panicked (lib : Tink H P E W) (kek : Option H) (B : Slice)
    (p : P) (hp : lib.aeadNew kek = .ok p) :
    (decryptDek lib kek B).panicked = false := by
  unfold decryptDek
  simp only [hp]
  split <;> rfl

/-! ## The claims -/

/-- C1: round trip.  If `CreateDek(K)` returns a blob `D` and
`Encrypt(P, K, D)` returns a ciphertext `C`, then `Decrypt(C, K, D)` returns
exactly `P` and prints nothing, for a library in which opening a sealed `P`
gives `P` back and reading a written keyset gives the keyset back. -/
theorem Decrypt_Encrypt_roundtrip (lib : Tink H P E W) (data : Slice) (kek : Option H)
    (w0 w1 : W) (D C : List Nat)
    (hopen : OpenSeal lib data) (hread : ReadWrite lib)
    (hD : (CreateDek lib kek w0).1.ret = some D)
    (hC : (Encrypt lib data kek (some D) w1).1.ret = some C) :
    (Decrypt lib (some C) kek (some D)).ret = data ∧
      printed (Decrypt lib (some C) kek (some D)).trace = [] ∧
      (Decrypt lib (some C) kek (some D)).panicked = false := by
  obtain ⟨dek, pk, _, hpk, herr, hbuf⟩ := CreateDek_ret_some lib kek w0 D hD
  have hr := hread dek pk _ herr
  rw [hbuf] at hr
  have hd := decryptDek_ok lib kek (some D) pk dek hpk hr
  have hnp := decryptDek_not_panicked lib kek (some D) pk hpk
  obtain ⟨p, hp, hseal, _⟩ := Encrypt_ret_some lib data kek (some D) w1 C hC
  have ho := hopen p none w1 (some C) hseal
  rw [Decrypt_open_ok lib (some C) kek (some D) p data hnp hp ho, hd]
  simp [printed]

/-- Witness for C1 on the concrete library: KEK `7`, generator state
`5`, plaintext `[1, 2, 3]`. -/
theorem Decrypt_Encrypt_roundtrip_witness :
    (CreateDek toy (some 7) 5).1.ret = some [118, 6, 105, 1] ∧
    (Encrypt toy (some [1, 2, 3]) (some 7) (some [118, 6, 105, 1]) 6).1.ret
      = some [117, 6, 1, 2, 3] ∧
    (Decrypt toy (some [117, 6, 1, 2, 3]) (some 7) (some [118, 6, 105, 1])).ret
      = some [1, 2, 3] :=
  ⟨by decide, by decide,
   (Decrypt_Encrypt_roundtrip toy (some [1, 2, 3]) (some 7) 5 6 [118, 6, 105, 1]
      [117, 6, 1, 2, 3] (toy_openSeal [1, 2, 3]) toy_readWrite
      (by decide) (by decide)).1⟩

/-- C2 fails on the code.  A blob made under KEK `7` does not unwrap under KEK
`9`: `decryptDek` prints the unwrap failure and returns nil.  `Encrypt` does
not stop there: it hands the nil handle to `aead.New`, which panics, so
`Encrypt` neither reports the unwrap failure to its caller nor returns. -/
theorem Encrypt_unwrap_failure_panics :
    (CreateDek toy (some 7) 5).1.ret = some [118, 6, 105, 1] ∧
    (decryptDek toy (some 9) (some [118, 6, 105, 1])).ret = none ∧
    (decryptDek toy (some 9) (some [118, 6, 105, 1])).panicked = false ∧
    (Encrypt toy (some [1, 2, 3]) (some 9) (some [118, 6, 105, 1]) 6).1.trace =
      [.aeadNew (some 9), .read (some [118, 6, 105, 1]) 9,
       .println "Unable to decrypt the DEK" .badKeyset,
       .aeadNew none] ∧
    (Encrypt toy (some [1, 2, 3]) (some 9) (some [118, 6, 105, 1]) 6).1.panicked
      = true := by
  decide

/-- C3 fails on the code.  With a blob of KEK `7` and KEK `9`, `Decrypt` fails
at the unwrap stage and then ends in the panic of `aead.New` on the nil handle:
no result reaches the caller.  With KEK `7` and a ciphertext whose last bit is
flipped it fails at the open stage, prints that failure and returns nil. -/
theorem Decrypt_unwrap_failure_panics :
    (decryptDek toy (some 9) (some [118, 6, 105, 1])).ret = none ∧
    (Decrypt toy (some [117, 6, 1, 2, 3]) (some 9) (some [118, 6, 105, 1])).trace =
      [.aeadNew (some 9), .read (some [118, 6, 105, 1]) 9,
       .println "Unable to decrypt the DEK" .badKeyset,
       .aeadNew none] ∧
    (Decrypt toy (some [117, 6, 1, 2, 3]) (some 9) (some [118, 6, 105, 1])).panicked
      = true ∧
    (decryptDek toy (some 7) (some [118, 6, 105, 1])).ret = some 105 ∧
    printed (Decrypt toy (some [117, 6, 1, 2, 2]) (some 7) (some [118, 6, 105, 1])).trace
      = ["Unable to decrypt the data using DEK"] ∧
    (Decrypt toy (some [117, 6, 1, 2, 2]) (some 7) (some [118, 6, 105, 1])).ret = none ∧
    (Decrypt toy (some [117, 6, 1, 2, 2]) (some 7) (some [118, 6, 105, 1])).panicked
      = false := by
  decide

/-- C4: `CreateDek` returns nil whenever generating the DEK fails, whenever
`aead.New` fails on the KEK, and whenever `dek.Write` returns an error, whatever
the buffer then holds. -/
theorem CreateDek_failure_returns_nil (lib : Tink H P E W) (kek : Option H)
    (w : W)
    (h : (∃ e, (lib.newHandle w).1 = .error e) ∨
         (∃ e, lib.aeadNew kek = .error e) ∨
         (∃ dek p e, (lib.newHandle w).1 = .ok dek ∧ lib.aeadNew kek = .ok p ∧
            (lib.write (some dek) p (lib.newHandle w).2).err = some e)) :
    (CreateDek lib kek w).1.ret = none ∧
      (CreateDek lib kek w).1.panicked = false := by
  unfold CreateDek
  split
  · exact ⟨rfl, rfl⟩
  · rename_i dek w1 hg
    simp only
    unfold encryptDek
    split
    · rename_i hp
      exfalso
      rcases h with ⟨e, he⟩ | ⟨e, he⟩ | ⟨dek1, p1, e, hd, hp1, hw⟩
      · rw [hg] at he; simp at he
      · rw [hp] at he; simp at he
      · rw [hp] at hp1; simp at hp1
    · exact ⟨rfl, rfl⟩
    · rename_i p hp
      simp only
      split
      · exact ⟨rfl, rfl⟩
      · rename_i herr
        exfalso
        rcases h with ⟨e, he⟩ | ⟨e, he⟩ | ⟨dek1, p1, e, hd, hp1, hw⟩
        · rw [hg] at he; simp at he
        · rw [hp] at he; simp at he
        · rw [hg] at hd hw
          simp only [Except.ok.injEq] at hd
          rw [hp] at hp1
          simp only [Built.ok.injEq] at hp1
          subst hd hp1
          rw [herr] at hw
          simp at hw

/-- Witness for C4: no entropy (state `0`), an
invalid KEK (`0`), and a write that fails after two bytes (KEK `13`). -/
theorem CreateDek_failure_returns_nil_witness :
    (CreateDek toy (some 7) 0).1.ret = none ∧
    (CreateDek toy (some 0) 5).1.ret = none ∧
    ((toy.write (some 105) 13 6).buf = some [8, 1] ∧
      (CreateDek toy (some 13) 5).1.ret = none) :=
  ⟨(CreateDek_failure_returns_nil toy (some 7) 0 (Or.inl ⟨.noEntropy, rfl⟩)).1,
   (CreateDek_failure_returns_nil toy (some 0) 5
      (Or.inr (Or.inl ⟨.invalidKeyset, rfl⟩))).1,
   by decide,
   (CreateDek_failure_returns_nil toy (some 13) 5
     (Or.inr (Or.inr ⟨105, 13, .sealFailed, rfl, rfl, rfl⟩))).1⟩

/-- C5: when `Encrypt(P, K, B)` returns a ciphertext, that ciphertext is what
sealing `P` with nil associated data returns under the primitive that `aead.New`
builds from the handle `decryptDek(K, B)` returned, and this is the only seal
call of the run. -/
theorem Encrypt_returns_the_seal (lib : Tink H P E W) (data : Slice)
    (kek : Option H) (B : Slice) (w : W) (c : List Nat)
    (h : (Encrypt lib data kek B w).1.ret = some c) :
    ∃ p, lib.aeadNew (decryptDek lib kek B).ret = .ok p ∧
      (lib.encrypt p data none w).1 = .ok (some c) ∧
      ∀ q d ad, Event.encrypt q d ad ∈ (Encrypt lib data kek B w).1.trace →
        q = p ∧ d = data ∧ ad = none := by
  obtain ⟨p, hp, hs, ht⟩ := Encrypt_ret_some lib data kek B w c h
  refine ⟨p, hp, hs, ?_⟩
  intro q d ad hmem
  rw [ht] at hmem
  have hno := (decryptDek_trace_no_payload lib kek B q d ad).1
  simp only [List.mem_append, List.mem_cons, List.mem_singleton] at hmem
  rcases hmem with hm | hm | hm | hm
  · exact absurd hm hno
  · cases hm
  · cases hm; exact ⟨rfl, rfl, rfl⟩
  · simp at hm

/-- Witness for C5: plaintext `[1, 2, 3]`, KEK `7`. -/
theorem Encrypt_returns_the_seal_witness :
    (Encrypt toy (some [1, 2, 3]) (some 7) (some [118, 6, 105, 1]) 6).1.ret
      = some [117, 6, 1, 2, 3] ∧
    ∃ p, toy.aeadNew (decryptDek toy (some 7) (some [118, 6, 105, 1])).ret = .ok p ∧
      (toy.encrypt p (some [1, 2, 3]) none 6).1 = .ok (some [117, 6, 1, 2, 3]) :=
  ⟨by decide,
   (Encrypt_returns_the_seal toy (some [1, 2, 3]) (some 7) (some [118, 6, 105, 1]) 6
     [117, 6, 1, 2, 3] (by decide)).imp fun _ hp => ⟨hp.1, hp.2.1⟩⟩

/-- C6: key secrecy boundary.  Let `D1` and `D2` be blobs returned by two
`CreateDek(K)` calls that unwrap under `K` to different DEK handles, and let
`C` be the ciphertext `Encrypt(P, K, D1)` returned.  If the AEAD open fails
under a key other than the sealing key, `Decrypt(C, K, D2)` returns nil, and
when a primitive is built from the second DEK the run prints exactly the open
failure, `Unable to decrypt the data using DEK`, and returns. -/
theorem Decrypt_with_other_blob_fails (lib : Tink H P E W) (data : Slice)
    (kek : Option H) (wa wb w : W) (D1 D2 C : List Nat) (dek1 dek2 : H)
    (hwk : WrongKeyFails lib)
    (_hD1 : (CreateDek lib kek wa).1.ret = some D1)
    (_hD2 : (CreateDek lib kek wb).1.ret = some D2)
    (h1 : (decryptDek lib kek (some D1)).ret = some dek1)
    (h2 : (decryptDek lib kek (some D2)).ret = some dek2)
    (hne : dek1 ≠ dek2)
    (hC : (Encrypt lib data kek (some D1) w).1.ret = some C) :
    (Decrypt lib (some C) kek (some D2)).ret = none ∧
    (∀ p2, lib.aeadNew (some dek2) = .ok p2 →
      printed (Decrypt lib (some C) kek (some D2)).trace =
        ["Unable to decrypt the data using DEK"] ∧
      (Decrypt lib (some C) kek (some D2)).panicked = false) := by
  obtain ⟨p1, hp1, hs, _⟩ := Encrypt_ret_some lib data kek (some D1) w C hC
  rw [h1] at hp1
  obtain ⟨pk, hpk, hr⟩ := decryptDek_ret_some lib kek (some D2) dek2 h2
  have hd2 := decryptDek_ok lib kek (some D2) pk dek2 hpk hr
  have hnp := decryptDek_not_panicked lib kek (some D2) pk hpk
  have key : ∀ p2, lib.aeadNew (some dek2) = .ok p2 →
      (Decrypt lib (some C) kek (some D2)).ret = none ∧
      printed (Decrypt lib (some C) kek (some D2)).trace =
        ["Unable to decrypt the data using DEK"] ∧
      (Decrypt lib (some C) kek (some D2)).panicked = false := by
    intro p2 hp2
    obtain ⟨e, he⟩ := hwk dek1 dek2 p1 p2 data none w (some C) hne hp1 hp2 hs
    have hp2a : lib.aeadNew (decryptDek lib kek (some D2)).ret = .ok p2 := by
      rw [h2, hp2]
    rw [Decrypt_open_error lib (some C) kek (some D2) p2 e hnp hp2a he, hd2]
    simp [printed]
  refine ⟨?_, fun p2 hp2 => (key p2 hp2).2⟩
  cases hq : lib.aeadNew (some dek2) with
  | ok p2 => exact (key p2 hq).1
  | error e =>
    have hqa : lib.aeadNew (decryptDek lib kek (some D2)).ret = .error e := by
      rw [h2, hq]
    rw [Decrypt_primitive_error lib (some C) kek (some D2) e hnp hqa]
  | panic =>
    unfold Decrypt
    simp only [hnp, h2, hq]

/-- Witness for C6: two blobs of KEK `7`, made in generator states `5` and
`8`, wrapping the DEKs `105` and `108`. -/
theorem Decrypt_with_other_blob_fails_witness :
    (CreateDek toy (some 7) 8).1.ret = some [124, 9, 108, 1] ∧
    (Decrypt toy (some [117, 6, 1, 2, 3]) (some 7) (some [124, 9, 108, 1])).ret
      = none :=
  ⟨by decide,
   (Decrypt_with_other_blob_fails toy (some [1, 2, 3]) (some 7) 5 8 6
      [118, 6, 105, 1] [124, 9, 108, 1] [117, 6, 1, 2, 3] 105 108 toy_wrongKeyFails
      (by decide) (by decide) (by decide) (by decide) (by decide) (by decide)).1⟩

/-- C8: wrap/unwrap round trip.  In a library where reading a written keyset
gives the keyset back: if `encryptDek(K, H)` returns a blob `B`, then
`decryptDek(K, B)` returns `H`; and if `CreateDek(K)` returns a blob `D`, the
handle that `decryptDek(K, D)` returns, which `Encrypt` and `Decrypt` hand to
`aead.New`, is the handle that `CreateDek` generated. -/
theorem decryptDek_encryptDek (lib : Tink H P E W) (kek : Option H) (dek : H)
    (w w0 : W) (B D : List Nat)
    (hrw : ReadWrite lib)
    (hB : (encryptDek lib kek (some dek) w).1.ret = some B)
    (hD : (CreateDek lib kek w0).1.ret = some D) :
    (decryptDek lib kek (some B)).ret = some dek ∧
    ∃ g, (lib.newHandle w0).1 = .ok g ∧
      (decryptDek lib kek (some D)).ret = some g ∧
      (∀ data w1, Event.aeadNew (some g) ∈
        (Encrypt lib data kek (some D) w1).1.trace) ∧
      (∀ ct, Event.aeadNew (some g) ∈ (Decrypt lib ct kek (some D)).trace) := by
  constructor
  · obtain ⟨p, hp, herr, hbuf⟩ := encryptDek_ret_some lib kek (some dek) w B hB
    have hr := hrw dek p w herr
    rw [hbuf] at hr
    rw [decryptDek_ok lib kek (some B) p dek hp hr]
  · obtain ⟨g, pk, hg, hpk, herr, hbuf⟩ := CreateDek_ret_some lib kek w0 D hD
    have hr := hrw g pk _ herr
    rw [hbuf] at hr
    have hd := decryptDek_ok lib kek (some D) pk g hpk hr
    refine ⟨g, hg, by rw [hd], ?_, ?_⟩
    · intro data w1
      unfold Encrypt
      simp only [hd]
      split
      · simp
      · simp
      · split <;> simp
    · intro ct
      unfold Decrypt
      simp only [hd]
      split
      · simp
      · simp
      · split <;> simp

/-- Witness for C8: DEK `105` wrapped under KEK `7`. -/
theorem decryptDek_encryptDek_witness :
    (encryptDek toy (some 7) (some 105) 6).1.ret = some [118, 6, 105, 1] ∧
    (decryptDek toy (some 7) (some [118, 6, 105, 1])).ret = some 105 :=
  ⟨by decide,
   (decryptDek_encryptDek toy (some 7) 105 6 5 [118, 6, 105, 1] [118, 6, 105, 1]
      toy_readWrite (by decide) (by decide)).1⟩

/-- C9: the KEK reaches the payload only through the DEK it unwraps.  If
`decryptDek(K1, B1)` and `decryptDek(K2, B2)` return the same DEK handle, then
`Decrypt(C, K1, B1)` and `Decrypt(C, K2, B2)` return the same value for every
`C`, and `Encrypt(P, K1, B1)` and `Encrypt(P, K2, B2)` started in the same
generator state return the same value and leave the same generator state; in
each pair either both runs return or both end in a panic. -/
theorem payload_depends_only_on_dek (lib : Tink H P E W)
    (kek1 : Option H) (B1 : Slice) (kek2 : Option H) (B2 : Slice) (dek : H)
    (h1 : (decryptDek lib kek1 B1).ret = some dek)
    (h2 : (decryptDek lib kek2 B2).ret = some dek) :
    (∀ ct, (Decrypt lib ct kek1 B1).ret = (Decrypt lib ct kek2 B2).ret ∧
      (Decrypt lib ct kek1 B1).panicked = (Decrypt lib ct kek2 B2).panicked) ∧
    (∀ data w, (Encrypt lib data kek1 B1 w).1.ret = (Encrypt lib data kek2 B2 w).1.ret ∧
      (Encrypt lib data kek1 B1 w).2 = (Encrypt lib data kek2 B2 w).2 ∧
      (Encrypt lib data kek1 B1 w).1.panicked =
        (Encrypt lib data kek2 B2 w).1.panicked) := by
  obtain ⟨p1, hp1, hr1⟩ := decryptDek_ret_some lib kek1 B1 dek h1
  obtain ⟨p2, hp2, hr2⟩ := decryptDek_ret_some lib kek2 B2 dek h2
  have e1 := decryptDek_ok lib kek1 B1 p1 dek hp1 hr1
  have e2 := decryptDek_ok lib kek2 B2 p2 dek hp2 hr2
  constructor
  · intro ct
    unfold Decrypt
    simp only [e1, e2]
    split
    · exact ⟨rfl, rfl⟩
    · exact ⟨rfl, rfl⟩
    · split <;> exact ⟨rfl, rfl⟩
  · intro data w
    unfold Encrypt
    simp only [e1, e2]
    split
    · exact ⟨rfl, rfl, rfl⟩
    · exact ⟨rfl, rfl, rfl⟩
    · split <;> exact ⟨rfl, rfl, rfl⟩

/-- Witness for C9: the DEK `105` wrapped under KEK `7` and under KEK `9`. -/
theorem payload_depends_only_on_dek_witness :
    (decryptDek toy (some 7) (some [118, 6, 105, 1])).ret = some 105 ∧
    (decryptDek toy (some 9) (some [115, 1, 105, 1])).ret = some 105 ∧
    (Decrypt toy (some [117, 6, 1, 2, 3]) (some 7) (some [118, 6, 105, 1])).ret =
      (Decrypt toy (some [117, 6, 1, 2, 3]) (some 9) (some [115, 1, 105, 1])).ret :=
  ⟨by decide, by decide,
   ((payload_depends_only_on_dek toy (some 7) (some [118, 6, 105, 1]) (some 9)
      (some [115, 1, 105, 1]) 105 (by decide) (by decide)).1
        (some [117, 6, 1, 2, 3])).1⟩

/-- C10 fails on the error returns.  With a valid blob and a ciphertext whose
last bit is flipped, `Decrypt` returns nil while its locals `dek` and
`aeadPrimitive` still hold the DEK handle and its primitive; the same holds for
`Encrypt` when the seal fails (DEK `13`), and when `aead.New` fails on the DEK
(DEK `0`) the local `dek` still holds the handle. -/
theorem error_returns_keep_the_dek :
    ((Decrypt toy (some [117, 6, 1, 2, 2]) (some 7) (some [118, 6, 105, 1])).ret = none ∧
     (Decrypt toy (some [117, 6, 1, 2, 2]) (some 7) (some [118, 6, 105, 1])).panicked
        = false ∧
     (Decrypt toy (some [117, 6, 1, 2, 2]) (some 7) (some [118, 6, 105, 1])).dek
        = some 105 ∧
     (Decrypt toy (some [117, 6, 1, 2, 2]) (some 7) (some [118, 6, 105, 1])).aeadPrimitive
        = some 105) ∧
    ((Encrypt toy (some [1, 2, 3]) (some 7) (some [21, 1, 13, 1]) 6).1.ret = none ∧
     (Encrypt toy (some [1, 2, 3]) (some 7) (some [21, 1, 13, 1]) 6).1.panicked = false ∧
     (Encrypt toy (some [1, 2, 3]) (some 7) (some [21, 1, 13, 1]) 6).1.dek = some 13 ∧
     (Encrypt toy (some [1, 2, 3]) (some 7) (some [21, 1, 13, 1]) 6).1.aeadPrimitive
        = some 13) ∧
    ((Decrypt toy (some [117, 6, 1, 2, 3]) (some 7) (some [8, 1, 0, 1])).ret = none ∧
     (Decrypt toy (some [117, 6, 1, 2, 3]) (some 7) (some [8, 1, 0, 1])).panicked = false ∧
     (Decrypt toy (some [117, 6, 1, 2, 3]) (some 7) (some [8, 1, 0, 1])).dek = some 0) := by
  decide

end Envelope
